import Mathlib

/-!
Shallow embedding of `src/sound_data.rs` from the `ears` crate: the
`SoundData` entity, its construction pipeline `SoundData::new`, the
accessors, and the `Drop` implementation.

External collaborator calls (sndfile, OpenAL, tag extraction) are modelled
as an oracle environment `Env` holding the responses those calls return in
one run, and the run is recorded as a trace of `Event`s so that properties
about which backend calls happen (buffer generation, deletion, file close,
printed diagnostics) can be stated and proved.
-/

namespace Ears

/-- The sndfile sample information struct (`SndInfo`): frame count (i64),
sample rate (i32) and channel count (i32), as captured from the decoder. -/
structure SndInfo where
  frames : Int
  samplerate : Int
  channels : Int
  deriving Repr, DecidableEq

/-- Metadata tags extracted from the file (`audio_tags::Tags`), kept opaque:
a list of key/value pairs. -/
structure Tags where
  fields : List (String × String)
  deriving Repr, DecidableEq

/-- The `SoundData` struct of `src/sound_data.rs`: tags, sndfile info, total
sample count (i64) and the OpenAL buffer identifier (u32). -/
structure SoundData where
  sound_tags : Tags
  snd_info : SndInfo
  nb_sample : Int
  al_buffer : Nat
  deriving Repr, DecidableEq

/-- Observable actions of one run of `SoundData::new` / `drop`: calls into
the decoding collaborator, the OpenAL backend, and printed diagnostics. -/
inductive Event where
  | sndFileOpen (path : String)
  | readI16 (requested : Int)
  | genBuffers
  | bufferData (buffer : Nat) (format : Int) (len : Int) (samplerate : Int)
  | printLn (msg : String)
  | fileClose
  | deleteBuffers (buffer : Nat)
  deriving Repr, DecidableEq

/-- Oracle environment: the responses of the external collaborators during
one run of `SoundData::new`.
- `ctx_active`: whether an OpenAL context is active (`check_openal_context!`).
- `open_result`: outcome of `SndFile::new(path, Read)`.
- `sndinfo`: value returned by `file.get_sndinfo()`.
- `read_i16_result`: the i64 return value of `file.read_i16` (the source
  discards this value).
- `get_channels_format`: `al::get_channels_format` as used by the source.
- `gen_buffer_id`: the identifier written by `al::alGenBuffers`.
- `openal_error`: result of `al::openal_has_error()`.
- `tags`: result of `get_sound_tags(&file)`. -/
structure Env where
  ctx_active : Bool
  open_result : String → Except String Unit
  sndinfo : SndInfo
  read_i16_result : Int
  get_channels_format : Int → Option Int
  gen_buffer_id : Nat
  openal_error : Option String
  tags : Tags

/-- Wrap an unbounded integer into the i64 value range, as Rust i64
arithmetic does on overflow. -/
def wrapI64 (n : Int) : Int := (n + 2 ^ 63) % 2 ^ 64 - 2 ^ 63

/-- The `as uint` cast of an i64 value on a 64-bit target. -/
def castU64 (n : Int) : Nat := (n % 2 ^ 64).toNat

/-- The `as i32` cast of an unbounded integer. -/
def wrapI32 (n : Int) : Int := (n + 2 ^ 31) % 2 ^ 32 - 2 ^ 31

/-- Labels for the distinct failure return sites of `SoundData::new` (the
source returns the undifferentiated value `None` at each of them; the label
records which return statement fired, named after the spec's taxonomy). -/
inductive FailSite where
  | noActiveContext
  | fileOpenError (msg : String)
  | unsupportedFormat
  | backendError (msg : String)
  deriving Repr, DecidableEq

/-- `SoundData::new` with labelled failure sites, embedded line by line from
`src/sound_data.rs` (lines 88-138), returning the result together with the
trace of collaborator calls and printed diagnostics.

The first gate is modelled from the spec: `check_openal_context!(None)` is a
macro defined in the crate's `internal` module, which is not among the
analysed sources; per spec §4 step 1 it queries the backend for an active
context and, if none, fails before touching the file system. Everything
after that gate is translated directly from the source:
- `SndFile::new(path, Read)`: on `Err(err)` print the error and return
  `None` (line 95).
- `infos = file.get_sndinfo()`, `nb_sample = infos.channels as i64 *
  infos.frames` (i64 arithmetic, lines 98-100).
- allocate `nb_sample as uint` samples and call `file.read_i16`, whose
  return value the source discards (lines 102-103).
- `len = size_of::<i16>() * samples.len()` (line 106).
- `al::get_channels_format(infos.channels)`: on `None` print
  "Internal error : unrecognized format." and return `None` (lines 109-115).
- `alGenBuffers` then `alBufferData(buffer_id, format, ptr, len as i32,
  infos.samplerate)` (lines 117-122).
- `al::openal_has_error()`: on `Some(err)` print it and return `None`
  (lines 124-127).
- build the `SoundData`, `file.close()`, return `Some` (lines 129-137). -/
def SoundData.newE (env : Env) (path : String) :
    Except FailSite SoundData × List Event :=
  if env.ctx_active = false then
    (.error .noActiveContext, [])
  else
    match env.open_result path with
    | .error err => (.error (.fileOpenError err), [.sndFileOpen path, .printLn err])
    | .ok () =>
      let infos := env.sndinfo
      let nb_sample := wrapI64 (infos.channels * infos.frames)
      let samplesLen := castU64 nb_sample
      let len := 2 * samplesLen
      match env.get_channels_format infos.channels with
      | none =>
        (.error .unsupportedFormat,
         [.sndFileOpen path, .readI16 nb_sample,
          .printLn "Internal error : unrecognized format."])
      | some format =>
        let buffer_id := env.gen_buffer_id
        let tr : List Event :=
          [.sndFileOpen path, .readI16 nb_sample, .genBuffers,
           .bufferData buffer_id format (wrapI32 (Int.ofNat len)) infos.samplerate]
        match env.openal_error with
        | some err => (.error (.backendError err), tr ++ [.printLn err])
        | none =>
          let sound_data : SoundData :=
            { sound_tags := env.tags
              snd_info := infos
              nb_sample := nb_sample
              al_buffer := buffer_id }
          (.ok sound_data, tr ++ [.fileClose])

/-- Turn a labelled result into the value the source actually returns. -/
def exceptToOption {ε α : Type} : Except ε α → Option α
  | .ok a => some a
  | .error _ => none

/-- `SoundData::new` as the caller sees it: an `Option SoundData` (the
source's return type), paired with the run's trace. -/
def SoundData.new (env : Env) (path : String) : Option SoundData × List Event :=
  let r := SoundData.newE env path
  (exceptToOption r.1, r.2)

/-- The `Drop` implementation for `SoundData` (lines 175-182): a single call
`ffi::alDeleteBuffers(1, &mut self.al_buffer)`. -/
def SoundData.drop (sd : SoundData) : List Event :=
  [.deleteBuffers sd.al_buffer]

/-- `get_sndinfo` accessor (lines 148-150). -/
def get_sndinfo (s_data : SoundData) : SndInfo :=
  s_data.snd_info

/-- `get_buffer` accessor (lines 159-161). -/
def get_buffer (s_data : SoundData) : Nat :=
  s_data.al_buffer

/-- `AudioTags::get_tags` for `SoundData` (lines 170-172). -/
def SoundData.get_tags (sd : SoundData) : Tags :=
  sd.sound_tags

/-- Whether an event is a `deleteBuffers` backend call. -/
def Event.isDeleteBuffers : Event → Bool
  | .deleteBuffers _ => true
  | _ => false

/-- Number of `deleteBuffers` backend calls in a trace. -/
def countDeleteBuffers (t : List Event) : Nat :=
  (t.filter Event.isDeleteBuffers).length

/-- Whether an event is the `alGenBuffers` backend call. -/
def Event.isGenBuffers : Event → Bool
  | .genBuffers => true
  | _ => false

/-- Number of `alGenBuffers` backend calls in a trace. -/
def countGenBuffers (t : List Event) : Nat :=
  (t.filter Event.isGenBuffers).length

/-! ### Concrete environments used as witnesses and counterexamples -/

/-- Sample info of a well-formed mono 16-bit file with 4 frames. -/
def infosMono : SndInfo :=
  { frames := 4, samplerate := 44100, channels := 1 }

/-- A fully successful run of the collaborators: active context, open
succeeds, mono file, mono/stereo formats recognized, no backend error. -/
def envOk : Env :=
  { ctx_active := true
    open_result := fun _ => .ok ()
    sndinfo := infosMono
    read_i16_result := 4
    get_channels_format := fun c =>
      if c = 1 then some 4352 else if c = 2 then some 4354 else none
    gen_buffer_id := 7
    openal_error := none
    tags := ⟨[("title", "Shot")]⟩ }

/-- As `envOk` but the backend error check after upload reports an error. -/
def envBackendErr : Env :=
  { envOk with openal_error := some "AL error" }

/-- As `envOk` but the file has a channel count no format maps to. -/
def envBadFormat : Env :=
  { envOk with sndinfo := { frames := 4, samplerate := 44100, channels := 6 } }

/-- As `envOk` but the decoder's file open fails. -/
def envOpenFail : Env :=
  { envOk with open_result := fun _ => .error "file not found" }

/-- As `envOk` but no OpenAL context is active. -/
def envNoCtx : Env :=
  { envOk with ctx_active := false }

/-- As `envOk` but the decoder reports 0 samples read (short read). -/
def envShortRead : Env :=
  { envOk with read_i16_result := 0 }


/-- The `SoundData` value produced by a run of `SoundData::new` under
`envOk`. -/
def sdOk : SoundData :=
  { sound_tags := ⟨[("title", "Shot")]⟩
    snd_info := infosMono
    nb_sample := 4
    al_buffer := 7 }

/-- The trace of a run of `SoundData::new` under `envOk`. -/
def trOk : List Event :=
  [.sndFileOpen "shot.wav", .readI16 4, .genBuffers,
   .bufferData 7 4352 8 44100, .fileClose]

/-! ### Helper lemmas -/

/-- i64 arithmetic on values inside the non-negative i64 range is exact. -/
lemma wrapI64_eq_self (n : Int) (h0 : 0 ≤ n) (h1 : n < 2 ^ 63) :
    wrapI64 n = n := by
  unfold wrapI64
  omega

/-- The caller-visible result is `some` exactly when the labelled embedding
returns `ok`. -/
lemma new_ok_iff (env : Env) (path : String) (sd : SoundData) (t : List Event) :
    SoundData.new env path = (some sd, t) ↔
      SoundData.newE env path = (.ok sd, t) := by
  unfold SoundData.new
  cases hE : SoundData.newE env path with
  | mk r tr =>
    cases r <;> simp [exceptToOption]

/-- Inversion of a successful run: the context was active, the open
succeeded, the format was recognized, the backend reported no error, and the
result and trace are exactly as built on the success path. -/
lemma newE_ok_inv (env : Env) (path : String) (sd : SoundData) (t : List Event)
    (h : SoundData.newE env path = (.ok sd, t)) :
    env.ctx_active = true ∧
    env.open_result path = .ok () ∧
    env.openal_error = none ∧
    (∃ fmt, env.get_channels_format env.sndinfo.channels = some fmt ∧
      t = [Event.sndFileOpen path,
           Event.readI16 (wrapI64 (env.sndinfo.channels * env.sndinfo.frames)),
           Event.genBuffers,
           Event.bufferData env.gen_buffer_id fmt
             (wrapI32 (Int.ofNat
               (2 * castU64 (wrapI64 (env.sndinfo.channels * env.sndinfo.frames)))))
             env.sndinfo.samplerate,
           Event.fileClose]) ∧
    sd = { sound_tags := env.tags
           snd_info := env.sndinfo
           nb_sample := wrapI64 (env.sndinfo.channels * env.sndinfo.frames)
           al_buffer := env.gen_buffer_id } := by
  cases hc : env.ctx_active with
  | false => simp [SoundData.newE, hc] at h
  | true =>
    cases ho : env.open_result path with
    | error e => simp [SoundData.newE, hc, ho] at h
    | ok u =>
      cases u
      cases hf : env.get_channels_format env.sndinfo.channels with
      | none => simp [SoundData.newE, hc, ho, hf] at h
      | some fmt =>
        cases he : env.openal_error with
        | some err => simp [SoundData.newE, hc, ho, hf, he] at h
        | none =>
          simp only [SoundData.newE, hc, ho, hf, he] at h
          simp at h
          obtain ⟨hsd, ht⟩ := h
          exact ⟨rfl, rfl, rfl, ⟨fmt, rfl, ht.symm⟩, hsd.symm⟩


/-! ### Claim theorems -/

/-- Claim C4 (confirmed): for every successfully constructed `SoundData`
from a well-formed file (non-negative channel and frame counts whose
product fits in i64), the stored sample count equals
channelCount × frameCount of the captured file info and is non-negative;
`SoundData` has no mutating operation, so the relation holds for the
entity's whole life. -/
theorem C4_sample_count (env : Env) (path : String) (sd : SoundData)
    (t : List Event)
    (h : SoundData.new env path = (some sd, t))
    (hch : 0 ≤ env.sndinfo.channels)
    (hfr : 0 ≤ env.sndinfo.frames)
    (hsz : env.sndinfo.channels * env.sndinfo.frames < 2 ^ 63) :
    sd.snd_info = env.sndinfo ∧
    sd.nb_sample = sd.snd_info.channels * sd.snd_info.frames ∧
    0 ≤ sd.nb_sample := by
  obtain ⟨-, -, -, -, hsd⟩ :=
    newE_ok_inv env path sd t ((new_ok_iff env path sd t).1 h)
  subst hsd
  have hmul : (0 : Int) ≤ env.sndinfo.channels * env.sndinfo.frames :=
    mul_nonneg hch hfr
  refine ⟨rfl, ?_, ?_⟩
  · simp [wrapI64_eq_self _ hmul hsz]
  · simp [wrapI64_eq_self _ hmul hsz, hmul]

/-- Witness for `C4_sample_count` at `envOk` (mono file with 4 frames). -/
theorem C4_sample_count_witness :
    sdOk.snd_info = envOk.sndinfo ∧
    sdOk.nb_sample = sdOk.snd_info.channels * sdOk.snd_info.frames ∧
    0 ≤ sdOk.nb_sample :=
  C4_sample_count envOk "shot.wav" sdOk trOk (by decide) (by decide)
    (by decide) (by decide)

/-- Claim C8 (confirmed): on every successful construction, the format
passed to the `alBufferData` upload equals the backend's channels-to-format
mapping applied to the captured file info's channel count, and every upload
in the run uses that format. -/
theorem C8_upload_format (env : Env) (path : String) (sd : SoundData)
    (t : List Event)
    (h : SoundData.new env path = (some sd, t)) :
    ∃ fmt, env.get_channels_format sd.snd_info.channels = some fmt ∧
      (∃ b l r, Event.bufferData b fmt l r ∈ t) ∧
      (∀ b f l r, Event.bufferData b f l r ∈ t → f = fmt) := by
  obtain ⟨-, -, -, ⟨fmt, hf, ht⟩, hsd⟩ :=
    newE_ok_inv env path sd t ((new_ok_iff env path sd t).1 h)
  subst hsd
  subst ht
  refine ⟨fmt, ?_, ?_, ?_⟩
  · simpa using hf
  · refine ⟨env.gen_buffer_id,
      wrapI32 (Int.ofNat
        (2 * castU64 (wrapI64 (env.sndinfo.channels * env.sndinfo.frames)))),
      env.sndinfo.samplerate, ?_⟩
    simp
  · intro b f l r hmem
    simp at hmem
    obtain ⟨-, hfe, -, -⟩ := hmem
    exact hfe

/-- Witness for `C8_upload_format` at `envOk`. -/
theorem C8_upload_format_witness :
    ∃ fmt, envOk.get_channels_format sdOk.snd_info.channels = some fmt ∧
      (∃ b l r, Event.bufferData b fmt l r ∈ trOk) ∧
      (∀ b f l r, Event.bufferData b f l r ∈ trOk → f = fmt) :=
  C8_upload_format envOk "shot.wav" sdOk trOk (by decide)

/-- Claim C9 (confirmed): one run of the `Drop` hook of `SoundData`
performs exactly one `deleteBuffers` backend call, and it is for the buffer
handle the instance owns; a single destruction never performs two
deletions. -/
theorem C9_drop_deletes_once (sd : SoundData) :
    countDeleteBuffers (SoundData.drop sd) = 1 ∧
    Event.deleteBuffers sd.al_buffer ∈ SoundData.drop sd ∧
    ∀ b, Event.deleteBuffers b ∈ SoundData.drop sd → b = sd.al_buffer := by
  refine ⟨?_, by simp [SoundData.drop], ?_⟩
  · simp [countDeleteBuffers, SoundData.drop, Event.isDeleteBuffers]
  · intro b hb
    simpa [SoundData.drop] using hb

/-- Claim C6 (confirmed; the context gate is modelled from the spec, see
`SoundData.newE`): with no active backend context, `SoundData::new` fails
at the `NoActiveContext` gate with an empty trace, so the decoder's open is
never invoked in such a run. -/
theorem C6_no_context_fails_first (env : Env) (path : String)
    (h : env.ctx_active = false) :
    SoundData.newE env path = (.error .noActiveContext, []) ∧
    ∀ q, Event.sndFileOpen q ∉ (SoundData.newE env path).2 := by
  have he : SoundData.newE env path = (.error .noActiveContext, []) := by
    simp [SoundData.newE, h]
  exact ⟨he, by simp [he]⟩

/-- Witness for `C6_no_context_fails_first` at `envNoCtx`. -/
theorem C6_no_context_fails_first_witness :
    SoundData.newE envNoCtx "shot.wav" = (.error .noActiveContext, []) ∧
    ∀ q, Event.sndFileOpen q ∉ (SoundData.newE envNoCtx "shot.wav").2 :=
  C6_no_context_fails_first envNoCtx "shot.wav" (by decide)

/-- Claim C7 (confirmed): when the context is active and the decoder's file
open fails, `SoundData::new` fails at the file-open return site carrying
the open diagnostic, and the run performs zero `alGenBuffers` calls. -/
theorem C7_open_fail_no_alloc (env : Env) (path : String) (msg : String)
    (hc : env.ctx_active = true)
    (ho : env.open_result path = .error msg) :
    (SoundData.newE env path).1 = .error (.fileOpenError msg) ∧
    countGenBuffers (SoundData.newE env path).2 = 0 := by
  simp [SoundData.newE, hc, ho, countGenBuffers, Event.isGenBuffers]

/-- Witness for `C7_open_fail_no_alloc` at `envOpenFail`. -/
theorem C7_open_fail_no_alloc_witness :
    (SoundData.newE envOpenFail "toto.wav").1 =
      .error (.fileOpenError "file not found") ∧
    countGenBuffers (SoundData.newE envOpenFail "toto.wav").2 = 0 :=
  C7_open_fail_no_alloc envOpenFail "toto.wav" "file not found"
    (by decide) rfl

/-- Claim C10 (confirmed): on the unsupported-channel-format path the
failure is returned before `alGenBuffers` is ever called, so that path
performs zero device-buffer allocations. -/
theorem C10_unsupported_before_alloc (env : Env) (path : String)
    (hc : env.ctx_active = true)
    (ho : env.open_result path = .ok ())
    (hf : env.get_channels_format env.sndinfo.channels = none) :
    (SoundData.newE env path).1 = .error .unsupportedFormat ∧
    countGenBuffers (SoundData.newE env path).2 = 0 := by
  simp [SoundData.newE, hc, ho, hf, countGenBuffers, Event.isGenBuffers]

/-- Witness for `C10_unsupported_before_alloc` at `envBadFormat`. -/
theorem C10_unsupported_before_alloc_witness :
    (SoundData.newE envBadFormat "shot.wav").1 = .error .unsupportedFormat ∧
    countGenBuffers (SoundData.newE envBadFormat "shot.wav").2 = 0 :=
  C10_unsupported_before_alloc envBadFormat "shot.wav" (by decide) rfl
    (by decide)


/-- Claim C1 counterexample: a concrete run in which the backend error
check after upload reports an error returns the failure value while the
trace contains the `alGenBuffers` call and no `deleteBuffers` call: the
buffer generated earlier in that run has not been deleted when the
function returns. -/
theorem C1_counterexample :
    envBackendErr.openal_error = some "AL error" ∧
    (SoundData.new envBackendErr "shot.wav").1 = none ∧
    Event.genBuffers ∈ (SoundData.new envBackendErr "shot.wav").2 ∧
    countDeleteBuffers (SoundData.new envBackendErr "shot.wav").2 = 0 :=
  ⟨rfl, by decide, by decide, by decide⟩

/-- Claim C1 amended: in every run where the backend error check after
upload reports an error, `SoundData::new` returns its failure value with
the generated buffer still allocated — the trace contains the
`alGenBuffers` call and no `deleteBuffers` call (the device buffer is
leaked on this failure path). -/
theorem C1_backend_error_leaks_buffer (env : Env) (path : String)
    (err : String)
    (hc : env.ctx_active = true)
    (ho : env.open_result path = .ok ())
    (hf : ∃ fmt, env.get_channels_format env.sndinfo.channels = some fmt)
    (he : env.openal_error = some err) :
    (SoundData.new env path).1 = none ∧
    Event.genBuffers ∈ (SoundData.new env path).2 ∧
    countDeleteBuffers (SoundData.new env path).2 = 0 := by
  obtain ⟨fmt, hf⟩ := hf
  simp [SoundData.new, SoundData.newE, hc, ho, hf, he, exceptToOption,
        countDeleteBuffers, Event.isDeleteBuffers]

/-- Witness for `C1_backend_error_leaks_buffer` at `envBackendErr`. -/
theorem C1_backend_error_leaks_buffer_witness :
    (SoundData.new envBackendErr "shot.wav").1 = none ∧
    Event.genBuffers ∈ (SoundData.new envBackendErr "shot.wav").2 ∧
    countDeleteBuffers (SoundData.new envBackendErr "shot.wav").2 = 0 :=
  C1_backend_error_leaks_buffer envBackendErr "shot.wav" "AL error"
    (by decide) rfl ⟨4352, by decide⟩ rfl

/-- Claim C2 counterexample: a concrete run in which the file open
succeeds but the channel format is unrecognized returns failure without a
`fileClose` event: the file is not closed on that failure path. -/
theorem C2_counterexample :
    envBadFormat.open_result "shot.wav" = .ok () ∧
    (SoundData.new envBadFormat "shot.wav").1 = none ∧
    Event.sndFileOpen "shot.wav" ∈ (SoundData.new envBadFormat "shot.wav").2 ∧
    Event.fileClose ∉ (SoundData.new envBadFormat "shot.wav").2 :=
  ⟨rfl, by decide, by decide, by decide⟩

/-- Claim C2 amended: `file.close()` is invoked only on the success path.
In every run where the open succeeds, the trace contains `fileClose` when
construction succeeds, and every failure path after the open returns
without closing the file. -/
theorem C2_close_only_on_success (env : Env) (path : String)
    (hc : env.ctx_active = true)
    (ho : env.open_result path = .ok ()) :
    ((SoundData.new env path).1.isSome = true →
      Event.fileClose ∈ (SoundData.new env path).2) ∧
    ((SoundData.new env path).1 = none →
      Event.fileClose ∉ (SoundData.new env path).2) := by
  cases hf : env.get_channels_format env.sndinfo.channels with
  | none => simp [SoundData.new, SoundData.newE, hc, ho, hf, exceptToOption]
  | some fmt =>
    cases he : env.openal_error with
    | some err =>
      simp [SoundData.new, SoundData.newE, hc, ho, hf, he, exceptToOption]
    | none =>
      simp [SoundData.new, SoundData.newE, hc, ho, hf, he, exceptToOption]

/-- Witness for `C2_close_only_on_success` at `envOk`. -/
theorem C2_close_only_on_success_witness :
    ((SoundData.new envOk "shot.wav").1.isSome = true →
      Event.fileClose ∈ (SoundData.new envOk "shot.wav").2) ∧
    ((SoundData.new envOk "shot.wav").1 = none →
      Event.fileClose ∉ (SoundData.new envOk "shot.wav").2) :=
  C2_close_only_on_success envOk "shot.wav" (by decide) rfl

/-- Claim C3 counterexample: a concrete run in which the decoder reports 0
of the 4 requested samples read still returns a constructed `SoundData`:
the short read does not make `SoundData::new` fail. -/
theorem C3_counterexample :
    envShortRead.read_i16_result = 0 ∧
    Event.readI16 4 ∈ (SoundData.new envShortRead "shot.wav").2 ∧
    (SoundData.new envShortRead "shot.wav").1 = some sdOk :=
  ⟨rfl, by decide, by decide⟩

/-- Claim C3 amended: the return value of the read-samples call is
discarded by `SoundData::new`; whenever the context is active, the open
succeeds, the format is recognized and the backend reports no error,
construction succeeds whatever number of samples the decoder reported (the
environment field `read_i16_result` is unconstrained here). -/
theorem C3_read_result_ignored (env : Env) (path : String)
    (hc : env.ctx_active = true)
    (ho : env.open_result path = .ok ())
    (hf : ∃ fmt, env.get_channels_format env.sndinfo.channels = some fmt)
    (he : env.openal_error = none) :
    (SoundData.new env path).1.isSome = true ∧
    Event.readI16 (wrapI64 (env.sndinfo.channels * env.sndinfo.frames)) ∈
      (SoundData.new env path).2 := by
  obtain ⟨fmt, hf⟩ := hf
  simp [SoundData.new, SoundData.newE, hc, ho, hf, he, exceptToOption]

/-- Witness for `C3_read_result_ignored` at `envShortRead` (0 of 4
requested samples read). -/
theorem C3_read_result_ignored_witness :
    (SoundData.new envShortRead "shot.wav").1.isSome = true ∧
    Event.readI16
        (wrapI64 (envShortRead.sndinfo.channels * envShortRead.sndinfo.frames)) ∈
      (SoundData.new envShortRead "shot.wav").2 :=
  C3_read_result_ignored envShortRead "shot.wav" (by decide) rfl
    ⟨4352, by decide⟩ rfl

/-- Claim C5 counterexample: two concrete failing runs with different
causes (file open failure; backend error after upload) both return the
identical, undifferentiated caller value `none`; the distinct diagnostic
messages appear only as printed-output events in the traces. -/
theorem C5_counterexample :
    (SoundData.new envOpenFail "shot.wav").1 =
      (SoundData.new envBackendErr "shot.wav").1 ∧
    (SoundData.new envOpenFail "shot.wav").1 = none ∧
    Event.printLn "file not found" ∈ (SoundData.new envOpenFail "shot.wav").2 ∧
    Event.printLn "AL error" ∈ (SoundData.new envBackendErr "shot.wav").2 :=
  ⟨by decide, by decide, by decide, by decide⟩

/-- Claim C5 amended: every construction failure is reported to the caller
as the undifferentiated value `None`, carrying no kind and no message; the
diagnostic message of the file-open, unsupported-format and backend-error
failures is delivered only as a printed-output event in the run. -/
theorem C5_failures_undifferentiated (env : Env) (path : String)
    (k : FailSite) (t : List Event)
    (h : SoundData.newE env path = (.error k, t)) :
    (SoundData.new env path).1 = none ∧
    (∀ msg, k = .fileOpenError msg → Event.printLn msg ∈ t) ∧
    (∀ msg, k = .backendError msg → Event.printLn msg ∈ t) ∧
    (k = .unsupportedFormat →
      Event.printLn "Internal error : unrecognized format." ∈ t) := by
  have h1 : (SoundData.new env path).1 = none := by
    simp [SoundData.new, h, exceptToOption]
  cases hc : env.ctx_active with
  | false =>
    simp [SoundData.newE, hc] at h
    obtain ⟨hk, ht⟩ := h
    subst hk
    subst ht
    exact ⟨h1, by simp, by simp, by simp⟩
  | true =>
    cases ho : env.open_result path with
    | error e =>
      simp [SoundData.newE, hc, ho] at h
      obtain ⟨hk, ht⟩ := h
      subst hk
      subst ht
      refine ⟨h1, ?_, ?_, ?_⟩ <;> simp
    | ok u =>
      cases u
      cases hf : env.get_channels_format env.sndinfo.channels with
      | none =>
        simp [SoundData.newE, hc, ho, hf] at h
        obtain ⟨hk, ht⟩ := h
        subst hk
        subst ht
        refine ⟨h1, ?_, ?_, ?_⟩ <;> simp
      | some fmt =>
        cases he : env.openal_error with
        | some err =>
          simp [SoundData.newE, hc, ho, hf, he] at h
          obtain ⟨hk, ht⟩ := h
          subst hk
          subst ht
          refine ⟨h1, ?_, ?_, ?_⟩ <;> simp
        | none =>
          simp [SoundData.newE, hc, ho, hf, he] at h

/-- Witness for `C5_failures_undifferentiated` on the file-open-failure
run under `envOpenFail`. -/
theorem C5_failures_undifferentiated_witness :
    (SoundData.new envOpenFail "shot.wav").1 = none ∧
    (∀ msg, FailSite.fileOpenError "file not found" = .fileOpenError msg →
      Event.printLn msg ∈
        [Event.sndFileOpen "shot.wav", Event.printLn "file not found"]) ∧
    (∀ msg, FailSite.fileOpenError "file not found" = .backendError msg →
      Event.printLn msg ∈
        [Event.sndFileOpen "shot.wav", Event.printLn "file not found"]) ∧
    (FailSite.fileOpenError "file not found" = .unsupportedFormat →
      Event.printLn "Internal error : unrecognized format." ∈
        [Event.sndFileOpen "shot.wav", Event.printLn "file not found"]) :=
  C5_failures_undifferentiated envOpenFail "shot.wav"
    (.fileOpenError "file not found")
    [Event.sndFileOpen "shot.wav", Event.printLn "file not found"] rfl

end Ears
